import Mathlib

/-!
Verification of the tool-invocation core of `crewai/tools/tool_usage.py`
(class `ToolUsage`): parsing a free-text instruction into a structured
call, selecting the target tool, repeated-usage suppression, cache-then-
execute decision, and the bounded retry loop around extraction.

The embedding is shallow: the mutable instance attribute `_run_attempts`
becomes explicit state passed in and returned; calls to external
collaborators (tracker, cache, printer, telemetry) become entries of an
event trace; Python exceptions become `Except` errors.
-/

namespace ToolUsage

/-- Values flowing through the pipeline (tool outputs, cached results,
argument values).  Python truthiness is modelled explicitly because the
source tests `if not result:` on the cache read. -/
inductive PyVal where
  | none
  | str (s : String)
  | int (n : Int)
  | bool (b : Bool)
deriving DecidableEq, Repr

/-- Python truthiness of a value: `None`, the empty string, `0` and
`False` are falsy, everything else is truthy. -/
def PyVal.truthy : PyVal → Bool
  | .none => false
  | .str s => !(s == "")
  | .int n => !(n == 0)
  | .bool b => b

/-- Python `str()` rendering, as used by f-string interpolation. -/
def PyVal.fstr : PyVal → String
  | .none => "None"
  | .str s => s
  | .int n => toString n
  | .bool true => "True"
  | .bool false => "False"

/-- Python `repr()` rendering, as used for values inside a dict display. -/
def PyVal.pyRepr : PyVal → String
  | .none => "None"
  | .str s => "\x27" ++ s ++ "\x27"
  | .int n => toString n
  | .bool true => "True"
  | .bool false => "False"

/-- An argument mapping (Python dict of argument name to value). -/
abbrev Args := List (String × PyVal)

/-- Python `str()` of an argument dict, rendered with repr-ed values. -/
def argsStr (a : Args) : String :=
  "\x7b" ++ String.intercalate ", "
    (a.map (fun kv => "\x27" ++ kv.1 ++ "\x27: " ++ kv.2.pyRepr)) ++ "\x7d"

/-- Python dict equality: same keys, and equal values at every key
(insertion order irrelevant). -/
def dictEq (a b : Args) : Bool :=
  a.all (fun kv => b.lookup kv.1 == some kv.2)
    && b.all (fun kv => a.lookup kv.1 == some kv.2)

/-- The Structured Call produced by extraction (`ToolCalling` pydantic
model in the source): which tool, which arguments. -/
structure ToolCalling where
  function_name : String
  arguments : Args
deriving DecidableEq, Repr

/-- Structural equality of two calls, as Python evaluates
`calling == last_tool_usage` on the pydantic model: fields compared,
argument dicts compared by `dictEq`. -/
def ToolCalling.structEq (a b : ToolCalling) : Bool :=
  a.function_name == b.function_name && dictEq a.arguments b.arguments

/-- A tool descriptor (`BaseTool` in the source): a name and an
executable action `_run`; a raising action is an `Except.error`. -/
structure BaseTool where
  name : String
  run : Args → Except String PyVal

/-- One observable side effect of an invocation: a call to an external
collaborator (tracker, cache, tool action, printer, telemetry). -/
inductive Event where
  | onToolStart (calling : ToolCalling)
  | cacheRead (tool : String) (input : Args)
  | toolRun (tool : String) (input : Args)
  | onToolEnd (calling : ToolCalling) (output : PyVal)
  | printed (content : String)
  | telemetryToolUsage (tool_name : String) (attempts : Nat)
  | telemetryToolUsageError
deriving DecidableEq, Repr

/-- Modelled from the spec: the localization collaborator (`I18N`, not
part of the core source) renders the `task_repeated_usage` error message
templated with the tool name and the arguments. -/
def task_repeated_usage_message (tool : String) (tool_input : String) : String :=
  "task_repeated_usage: tool=" ++ tool ++ ", tool_input=" ++ tool_input

/-- Embedding of `ToolUsage._check_tool_repeated_usage`: reads the
tracker property `last_used_tool`; when one exists (is not `None`),
returns whether it equals the current call, else falls through
(falsy `None`). -/
def check_tool_repeated_usage (last_used_tool : Option ToolCalling)
    (calling : ToolCalling) : Bool :=
  match last_used_tool with
  | some last => calling.structEq last
  | none => false

/-- Embedding of `ToolUsage._select_tool`: linear scan of the available
tools for an exact name match; raises `Tool '<name>' not found.` when
none matches. -/
def select_tool (tools : List BaseTool) (tool_name : String) :
    Except String BaseTool :=
  match tools.find? (fun t => t.name == tool_name) with
  | some t => .ok t
  | none => .error ("Tool \x27" ++ tool_name ++ "\x27 not found.")

/-- The content the printer receives: `f"\n\n{result}\n"`. -/
def printedContent (result : PyVal) : String :=
  "\n\n" ++ result.fstr ++ "\n"

/-- Embedding of `ToolUsage._use`.  Inputs: the cache gateway read
function, the tracker property `last_used_tool`, the current value of
the instance counter `_run_attempts`, the selected tool and the
structured call.  Output: the result (or the propagated exception) and
the trace of collaborator calls, in order. -/
def tool_use (cache : String → Args → Option PyVal)
    (last_used_tool : Option ToolCalling) (run_attempts : Nat)
    (tool : BaseTool) (calling : ToolCalling) :
    Except String PyVal × List Event :=
  if check_tool_repeated_usage last_used_tool calling then
    let result := PyVal.str (task_repeated_usage_message
      calling.function_name (argsStr calling.arguments))
    (.ok result,
      [.printed (printedContent result),
       .telemetryToolUsage tool.name run_attempts])
  else
    let cached : PyVal :=
      match cache calling.function_name calling.arguments with
      | some v => v
      | none => PyVal.none
    let evs : List Event :=
      [.onToolStart calling,
       .cacheRead calling.function_name calling.arguments]
    if cached.truthy then
      (.ok cached,
        evs ++ [.printed (printedContent cached),
                .telemetryToolUsage tool.name run_attempts])
    else
      match tool.run calling.arguments with
      | .error e =>
          (.error e, evs ++ [.toolRun calling.function_name calling.arguments])
      | .ok output =>
          (.ok output,
            evs ++ [.toolRun calling.function_name calling.arguments,
                    .onToolEnd calling output,
                    .printed (printedContent output),
                    .telemetryToolUsage tool.name run_attempts])

/-- Embedding of `ToolUsage._tool_calling`.  The external
text-understanding delegate is modelled as a function from the index of
the delegate call (0 for the first call made during this extraction) to
its outcome.  State threaded through: the instance counter
`_run_attempts` and the call index.  Output: the extraction result, the
final counter, the total number of delegate calls made, and the trace.
Recursion is on the gap between the counter and the threshold, exactly
as in the source, where the counter strictly increases on failure. -/
def tool_calling (delegate : Nat → Except String ToolCalling)
    (max_parsing_attempts : Nat) (run_attempts : Nat) (idx : Nat) :
    Except String ToolCalling × Nat × Nat × List Event :=
  match delegate idx with
  | .ok c => (.ok c, run_attempts, idx + 1, [])
  | .error e =>
    if h : run_attempts + 1 > max_parsing_attempts then
      (.error e, run_attempts + 1, idx + 1, [.telemetryToolUsageError])
    else
      tool_calling delegate max_parsing_attempts (run_attempts + 1) (idx + 1)
termination_by max_parsing_attempts + 1 - run_attempts
decreasing_by simp only [gt_iff_lt, not_lt] at h; omega

/-- Embedding of `ToolUsage.use`: extract the structured call (retrying
extraction up to the threshold, see `tool_calling`), select the tool,
then dispatch via `tool_use`; each failure propagates.  The instance
field `_max_parsing_attempts` is 3.  Output: the result (or the
propagated exception), the final value of the instance counter
`_run_attempts`, and the trace. -/
def use (delegate : Nat → Except String ToolCalling)
    (cache : String → Args → Option PyVal) (tools : List BaseTool)
    (last_used_tool : Option ToolCalling) (run_attempts : Nat) :
    Except String PyVal × Nat × List Event :=
  match tool_calling delegate 3 run_attempts 0 with
  | (.error e, ra, _, evs) => (.error e, ra, evs)
  | (.ok calling, ra, _, evs) =>
    match select_tool tools calling.function_name with
    | .error e => (.error e, ra, evs)
    | .ok tool =>
      let r := tool_use cache last_used_tool ra tool calling
      (r.1, ra, evs ++ r.2)

/-- Modelled from the spec: the tracker collaborator (`ToolsHandler`,
not part of the core source) records the call passed to `on_tool_start`
as its new `last_used_tool`; no other collaborator call changes it. -/
def handlerStep (last : Option ToolCalling) (e : Event) : Option ToolCalling :=
  match e with
  | .onToolStart c => some c
  | _ => last

/-- The tracker state after observing a trace of events. -/
def handlerRun (last : Option ToolCalling) (evs : List Event) :
    Option ToolCalling :=
  evs.foldl handlerStep last

/-- Holds when a trace contains no tool execution (`toolRun`) and no
completion notification (`onToolEnd`, the cache-population hook): the
action was not executed and the cache was not updated. -/
def noExecutionOrCacheEvents (evs : List Event) : Bool :=
  evs.all fun e =>
    match e with
    | .toolRun _ _ => false
    | .onToolEnd _ _ => false
    | _ => true

/-- Holds when a trace contains no tool execution event. -/
def noRunEvents (evs : List Event) : Bool :=
  evs.all fun e =>
    match e with
    | .toolRun _ _ => false
    | _ => true

/-- Holds when a trace contains no tracker notification at all (neither
`onToolStart` nor `onToolEnd`). -/
def noTrackerEvents (evs : List Event) : Bool :=
  evs.all fun e =>
    match e with
    | .onToolStart _ => false
    | .onToolEnd _ _ => false
    | _ => true

/-- Whether an extraction outcome is a propagated failure. -/
def isFailure (r : Except String ToolCalling) : Bool :=
  match r with
  | .error _ => true
  | .ok _ => false

/-- Iterates `tool_use` a given number of consecutive invocations that
all resolve to the same structured call, threading the tracker state
(updated by `handlerRun` after each invocation) through; returns the
per-invocation results and the final tracker state. -/
def consecutive_tool_uses (cache : String → Args → Option PyVal) (ra : Nat)
    (tool : BaseTool) (calling : ToolCalling) :
    Nat → Option ToolCalling → List (Except String PyVal) × Option ToolCalling
  | 0, last => ([], last)
  | n + 1, last =>
    let r := tool_use cache last ra tool calling
    let rest := consecutive_tool_uses cache ra tool calling n (handlerRun last r.2)
    (r.1 :: rest.1, rest.2)

/-- A concrete structured call used to instantiate the theorems below. -/
def wCall : ToolCalling := ⟨"search", [("q", PyVal.str "x")]⟩

/-- A concrete tool whose action succeeds with the string 42. -/
def wTool : BaseTool := ⟨"search", fun _ => .ok (.str "42")⟩

/-- A concrete tool whose action always raises. -/
def wFailTool : BaseTool := ⟨"search", fun _ => .error "boom"⟩

/-- A cache gateway with no stored values. -/
def wCacheEmpty : String → Args → Option PyVal := fun _ _ => none

/-- A cache gateway holding the string 42 for every key. -/
def wCache42 : String → Args → Option PyVal := fun _ _ => some (.str "42")

/-- On the repeated-usage branch, `tool_use` returns exactly the
templated message and its trace is exactly a print followed by the
usage-telemetry signal. -/
theorem tool_use_repeated_eq
    (cache : String → Args → Option PyVal) (last : Option ToolCalling)
    (ra : Nat) (tool : BaseTool) (calling : ToolCalling)
    (h : check_tool_repeated_usage last calling = true) :
    tool_use cache last ra tool calling =
      (.ok (.str (task_repeated_usage_message calling.function_name
          (argsStr calling.arguments))),
       [.printed (printedContent (.str (task_repeated_usage_message
          calling.function_name (argsStr calling.arguments)))),
        .telemetryToolUsage tool.name ra]) := by
  simp [tool_use, h]

/-- C1: when the extracted structured call is structurally identical to
the tracker last-used call, the orchestrator returns the localized
task-repeated-usage message templated with the tool name and the
arguments, the tool action is not executed and the cache is not updated
(no execution event and no completion notification in the trace). -/
theorem repeated_call_yields_message_and_skips_execution
    (cache : String → Args → Option PyVal) (last : Option ToolCalling)
    (ra : Nat) (tool : BaseTool) (calling : ToolCalling)
    (h : check_tool_repeated_usage last calling = true) :
    (tool_use cache last ra tool calling).1 =
      .ok (.str (task_repeated_usage_message calling.function_name
        (argsStr calling.arguments))) ∧
    noExecutionOrCacheEvents (tool_use cache last ra tool calling).2 = true := by
  rw [tool_use_repeated_eq cache last ra tool calling h]
  exact ⟨rfl, rfl⟩

/-- Witness for C1 at a concrete repeated call. -/
theorem repeated_call_yields_message_and_skips_execution_witness :
    check_tool_repeated_usage (some wCall) wCall = true ∧
    ((tool_use wCacheEmpty (some wCall) 1 wTool wCall).1 =
      .ok (.str (task_repeated_usage_message wCall.function_name
        (argsStr wCall.arguments))) ∧
    noExecutionOrCacheEvents (tool_use wCacheEmpty (some wCall) 1 wTool wCall).2
      = true) :=
  ⟨by decide,
   repeated_call_yields_message_and_skips_execution wCacheEmpty (some wCall)
     1 wTool wCall (by decide)⟩

/-- C8: the usage guard returns true exactly when a last-used call
exists and is structurally equal to the current call.  In this
embedding the guard is a pure function of the tracker property and the
call: it produces no events and returns no state, so it mutates
nothing. -/
theorem check_repeated_iff_last_exists_and_equal
    (last : Option ToolCalling) (calling : ToolCalling) :
    check_tool_repeated_usage last calling = true ↔
      ∃ c, last = some c ∧ calling.structEq c = true := by
  cases last with
  | none => simp [check_tool_repeated_usage]
  | some c => simp [check_tool_repeated_usage]

/-- C6: tool selection is a linear scan for an exact, case-sensitive
name match: a name absent from a non-empty list raises the
tool-not-found failure carrying the requested name; a name present
exactly once returns that descriptor; with duplicate names the first
match in list order is returned. -/
theorem select_tool_exactness
    (tools pre post : List BaseTool) (name : String) (t : BaseTool) :
    (tools ≠ [] → (∀ u ∈ tools, u.name ≠ name) →
      select_tool tools name =
        .error ("Tool \x27" ++ name ++ "\x27 not found.")) ∧
    (t ∈ tools → t.name = name → (∀ u ∈ tools, u.name = name → u = t) →
      select_tool tools name = .ok t) ∧
    (t.name = name → (∀ u ∈ pre, u.name ≠ name) →
      select_tool (pre ++ t :: post) name = .ok t) := by
  refine ⟨?_, ?_, ?_⟩
  · intro _ hnone
    have hfind : tools.find? (fun u => u.name == name) = none := by
      rw [List.find?_eq_none]
      intro u hu
      simpa using hnone u hu
    simp [select_tool, hfind]
  · intro hmem hname huniq
    have hfind : tools.find? (fun u => u.name == name) = some t := by
      induction tools with
      | nil => simp at hmem
      | cons u rest ih =>
        by_cases hu : u.name = name
        · have hut : u = t := huniq u (List.mem_cons_self u rest) hu
          subst hut
          simp [List.find?_cons_of_pos, hu]
        · have hne : ¬ ((fun v => v.name == name) u = true) := by simpa using hu
          rw [List.find?_cons_of_neg (p := fun v => v.name == name) rest hne]
          have hmem2 : t ∈ rest := by
            rcases List.mem_cons.mp hmem with h | h
            · exact absurd (h ▸ hname) hu
            · exact h
          exact ih hmem2
            (fun v hv hvn => huniq v (List.mem_cons_of_mem u hv) hvn)
    simp [select_tool, hfind]
  · intro hname hpre
    have hfind : (pre ++ t :: post).find? (fun u => u.name == name) = some t := by
      induction pre with
      | nil =>
        have hpos : ((fun v => v.name == name) t = true) := by simpa using hname
        simpa using
          List.find?_cons_of_pos (p := fun v => v.name == name) post hpos
      | cons u rest ih =>
        have hne : ¬ ((fun v => v.name == name) u = true) := by
          simpa using hpre u (List.mem_cons_self u rest)
        rw [List.cons_append,
          List.find?_cons_of_neg (p := fun v => v.name == name)
            (rest ++ t :: post) hne]
        exact ih (fun v hv => hpre v (List.mem_cons_of_mem u hv))
    simp [select_tool, hfind]

/-- Witness for C6: a missing name fails carrying the name; a unique
name returns its descriptor; with two tools of the same name the first
one is returned. -/
theorem select_tool_exactness_witness :
    (select_tool [wTool] "missing" =
      .error ("Tool \x27" ++ "missing" ++ "\x27 not found.")) ∧
    (select_tool [wTool] "search" = .ok wTool) ∧
    (select_tool ([] ++ wFailTool :: [wTool]) "search" = .ok wFailTool) := by
  refine ⟨?_, ?_, ?_⟩
  · exact (select_tool_exactness [wTool] [] [] "missing" wTool).1
      (by simp)
      (by
        intro u hu
        rw [List.mem_singleton] at hu
        subst hu
        decide)
  · exact (select_tool_exactness [wTool] [] [] "search" wTool).2.1
      (List.mem_singleton.mpr rfl) rfl
      (by
        intro u hu _
        exact List.mem_singleton.mp hu)
  · exact (select_tool_exactness [] [] [wTool] "search" wFailTool).2.2 rfl
      (by
        intro u hu
        exact absurd hu (List.not_mem_nil u))

/-- C2 counterexample: the cache read returns a present value (the
empty string) for a non-repeated call, yet the tool action is executed
anyway and its fresh output, not the cached value, is returned — the
source tests Python truthiness of the cached value, not its presence. -/
theorem cache_present_value_still_executes_cex :
    ((fun (_ : String) (_ : Args) => some (PyVal.str "")) "search"
        ([] : Args) = some (PyVal.str "")) ∧
    check_tool_repeated_usage none ⟨"search", []⟩ = false ∧
    (tool_use (fun _ _ => some (PyVal.str "")) none 1
        ⟨"search", fun _ => .ok (.str "fresh")⟩ ⟨"search", []⟩).1 =
      .ok (.str "fresh") ∧
    Event.toolRun "search" [] ∈
      (tool_use (fun _ _ => some (PyVal.str "")) none 1
        ⟨"search", fun _ => .ok (.str "fresh")⟩ ⟨"search", []⟩).2 := by
  refine ⟨rfl, rfl, ?_, ?_⟩ <;>
    simp [tool_use, check_tool_repeated_usage, PyVal.truthy]

/-- C2 amended: for a non-repeated call, when the cache read returns a
present value that is Python-truthy, the tool action is not invoked and
the cached value is returned verbatim (a present falsy value, such as
the empty string, is treated as a miss). -/
theorem cache_truthy_hit_skips_execution
    (cache : String → Args → Option PyVal) (last : Option ToolCalling)
    (ra : Nat) (tool : BaseTool) (calling : ToolCalling) (v : PyVal)
    (hnr : check_tool_repeated_usage last calling = false)
    (hc : cache calling.function_name calling.arguments = some v)
    (ht : v.truthy = true) :
    (tool_use cache last ra tool calling).1 = .ok v ∧
    noRunEvents (tool_use cache last ra tool calling).2 = true := by
  simp [tool_use, hnr, hc, ht, noRunEvents]

/-- Witness for the amended C2 at a concrete truthy cached value. -/
theorem cache_truthy_hit_skips_execution_witness :
    check_tool_repeated_usage none wCall = false ∧
    wCache42 wCall.function_name wCall.arguments = some (PyVal.str "42") ∧
    (PyVal.str "42").truthy = true ∧
    ((tool_use wCache42 none 1 wTool wCall).1 = .ok (PyVal.str "42") ∧
     noRunEvents (tool_use wCache42 none 1 wTool wCall).2 = true) :=
  ⟨rfl, rfl, rfl,
   cache_truthy_hit_skips_execution wCache42 none 1 wTool wCall
     (PyVal.str "42") rfl rfl rfl⟩

/-- C5: for a non-repeated call whose cache read returns no value, the
orchestrator notifies the tracker of the start with the call, queries
the cache, executes the tool action on the call arguments, notifies the
tracker of the end with the call and the output, prints, emits the
usage-telemetry signal carrying the attempt count and the tool name,
and returns the action output — in exactly this order. -/
theorem cache_miss_executes_and_reports
    (cache : String → Args → Option PyVal) (last : Option ToolCalling)
    (ra : Nat) (tool : BaseTool) (calling : ToolCalling) (out : PyVal)
    (hnr : check_tool_repeated_usage last calling = false)
    (hc : cache calling.function_name calling.arguments = none)
    (hr : tool.run calling.arguments = .ok out) :
    tool_use cache last ra tool calling =
      (.ok out,
       [.onToolStart calling,
        .cacheRead calling.function_name calling.arguments,
        .toolRun calling.function_name calling.arguments,
        .onToolEnd calling out,
        .printed (printedContent out),
        .telemetryToolUsage tool.name ra]) := by
  simp [tool_use, hnr, hc, hr, PyVal.truthy]

/-- Witness for C5 at a concrete fresh execution. -/
theorem cache_miss_executes_and_reports_witness :
    check_tool_repeated_usage none wCall = false ∧
    wCacheEmpty wCall.function_name wCall.arguments = none ∧
    wTool.run wCall.arguments = .ok (PyVal.str "42") ∧
    tool_use wCacheEmpty none 1 wTool wCall =
      (.ok (PyVal.str "42"),
       [.onToolStart wCall,
        .cacheRead wCall.function_name wCall.arguments,
        .toolRun wCall.function_name wCall.arguments,
        .onToolEnd wCall (PyVal.str "42"),
        .printed (printedContent (PyVal.str "42")),
        .telemetryToolUsage wTool.name 1]) :=
  ⟨rfl, rfl, rfl,
   cache_miss_executes_and_reports wCacheEmpty none 1 wTool wCall
     (PyVal.str "42") rfl rfl rfl⟩

/-- C7: when the selected tool action raises during execution (the
extraction succeeded, the call is not a repeat and the cache has no
value), the failure propagates to the orchestrator caller as is: the
result is the raised error, not an in-band result string, the action
ran exactly once with no retry, and no completion, print or telemetry
event follows it. -/
theorem execution_failure_propagates
    (delegate : Nat → Except String ToolCalling)
    (cache : String → Args → Option PyVal) (tools : List BaseTool)
    (last : Option ToolCalling) (ra : Nat) (calling : ToolCalling)
    (tool : BaseTool) (e : String)
    (hd : delegate 0 = .ok calling)
    (hs : select_tool tools calling.function_name = .ok tool)
    (hnr : check_tool_repeated_usage last calling = false)
    (hc : cache calling.function_name calling.arguments = none)
    (hr : tool.run calling.arguments = .error e) :
    (use delegate cache tools last ra).1 = .error e ∧
    (use delegate cache tools last ra).2.2 =
      [.onToolStart calling,
       .cacheRead calling.function_name calling.arguments,
       .toolRun calling.function_name calling.arguments] := by
  have hTC : tool_calling delegate 3 ra 0 = (.ok calling, ra, 1, []) := by
    simp [tool_calling, hd]
  constructor <;>
    simp [use, hTC, hs, tool_use, hnr, hc, hr, PyVal.truthy]

/-- Witness for C7 at a concrete raising tool action. -/
theorem execution_failure_propagates_witness :
    (fun (_ : Nat) => (Except.ok wCall : Except String ToolCalling)) 0 =
      .ok wCall ∧
    select_tool [wFailTool] wCall.function_name = .ok wFailTool ∧
    check_tool_repeated_usage none wCall = false ∧
    wCacheEmpty wCall.function_name wCall.arguments = none ∧
    wFailTool.run wCall.arguments = .error "boom" ∧
    ((use (fun _ => .ok wCall) wCacheEmpty [wFailTool] none 1).1 =
      .error "boom" ∧
    (use (fun _ => .ok wCall) wCacheEmpty [wFailTool] none 1).2.2 =
      [.onToolStart wCall,
       .cacheRead wCall.function_name wCall.arguments,
       .toolRun wCall.function_name wCall.arguments]) :=
  ⟨rfl, rfl, rfl, rfl, rfl,
   execution_failure_propagates (fun _ => .ok wCall) wCacheEmpty [wFailTool]
     none 1 wCall wFailTool "boom" rfl rfl rfl rfl rfl⟩

/-- C3: with the counter at its initial value 1 and the threshold 3, a
delegate that fails on every call is consulted exactly 3 times and then
the failure propagates; a delegate that fails exactly twice and then
succeeds yields the successful structured call after exactly 3 calls,
with the attempt counter equal to 3. -/
theorem extraction_retry_bound
    (d1 d2 : Nat → Except String ToolCalling) (c : ToolCalling)
    (hf : ∀ i, ∃ e, d1 i = .error e)
    (g0 : ∃ e, d2 0 = .error e) (g1 : ∃ e, d2 1 = .error e)
    (g2 : d2 2 = .ok c) :
    ((tool_calling d1 3 1 0).2.2.1 = 3 ∧
      isFailure (tool_calling d1 3 1 0).1 = true) ∧
    ((tool_calling d2 3 1 0).1 = .ok c ∧
      (tool_calling d2 3 1 0).2.1 = 3 ∧
      (tool_calling d2 3 1 0).2.2.1 = 3) := by
  obtain ⟨e0, h0⟩ := hf 0
  obtain ⟨e1, h1⟩ := hf 1
  obtain ⟨e2, h2⟩ := hf 2
  obtain ⟨f0, g0⟩ := g0
  obtain ⟨f1, g1⟩ := g1
  constructor
  · constructor <;> simp [tool_calling, h0, h1, h2, isFailure]
  · refine ⟨?_, ?_, ?_⟩ <;> simp [tool_calling, g0, g1, g2]

/-- Witness for C3 with an always-failing delegate and a
fails-twice-then-succeeds delegate. -/
theorem extraction_retry_bound_witness :
    (((tool_calling (fun _ => .error "boom") 3 1 0).2.2.1 = 3 ∧
      isFailure (tool_calling (fun _ => .error "boom") 3 1 0).1 = true) ∧
    ((tool_calling (fun i => if i < 2 then .error "boom" else .ok wCall)
        3 1 0).1 = .ok wCall ∧
      (tool_calling (fun i => if i < 2 then .error "boom" else .ok wCall)
        3 1 0).2.1 = 3 ∧
      (tool_calling (fun i => if i < 2 then .error "boom" else .ok wCall)
        3 1 0).2.2.1 = 3)) :=
  extraction_retry_bound (fun _ => .error "boom")
    (fun i => if i < 2 then .error "boom" else .ok wCall) wCall
    (fun _ => ⟨"boom", rfl⟩) ⟨"boom", rfl⟩ ⟨"boom", rfl⟩ rfl

/-- C4 counterexample: with a delegate whose three failures are
distinct, exhausting the retries propagates the failure raised by the
third (final) attempt, not the failure of the first attempt as the
claim states. -/
theorem retry_propagates_final_not_first_cex :
    ((fun i => if i == 0 then Except.error "first" else
        if i == 1 then Except.error "second" else
        (Except.error "third" : Except String ToolCalling)) 0 =
      .error "first") ∧
    tool_calling (fun i => if i == 0 then .error "first" else
        if i == 1 then .error "second" else .error "third") 3 1 0 =
      (.error "third", 4, 3, [.telemetryToolUsageError]) ∧
    (Except.error "third" : Except String ToolCalling) ≠ .error "first" := by
  refine ⟨rfl, ?_, by simp⟩
  simp [tool_calling]

/-- C4 amended: when the attempt counter exceeds the threshold, the
extractor stops retrying (exactly 3 delegate calls were made), emits a
failure-telemetry signal, and propagates the failure of the final
(third) attempt to the caller, returning no result. -/
theorem retry_exhaustion_raises_final_failure
    (d : Nat → Except String ToolCalling) (e0 e1 e2 : String)
    (h0 : d 0 = .error e0) (h1 : d 1 = .error e1) (h2 : d 2 = .error e2) :
    tool_calling d 3 1 0 = (.error e2, 4, 3, [.telemetryToolUsageError]) := by
  simp [tool_calling, h0, h1, h2]

/-- Witness for the amended C4 with three distinct failures. -/
theorem retry_exhaustion_raises_final_failure_witness :
    (fun i => if i == 0 then Except.error "first" else
        if i == 1 then Except.error "second" else
        (Except.error "third" : Except String ToolCalling)) 0 =
      .error "first" ∧
    tool_calling (fun i => if i == 0 then .error "first" else
        if i == 1 then .error "second" else .error "third") 3 1 0 =
      (.error "third", 4, 3, [.telemetryToolUsageError]) :=
  ⟨rfl,
   retry_exhaustion_raises_final_failure
     (fun i => if i == 0 then .error "first" else
       if i == 1 then .error "second" else .error "third")
     "first" "second" "third" rfl rfl rfl⟩

/-- C9 counterexample: the attempt counter is carried across
invocations of the same instance.  A first invocation whose delegate
fails once leaves the counter at 2; a second invocation on the same
instance with a delegate that never fails then reports 2 attempts to
telemetry, not 1 as the claim requires. -/
theorem attempt_counter_not_per_invocation_cex :
    (use (fun i => if i == 0 then .error "parse" else .ok wCall)
        wCacheEmpty [wTool] none 1).2.1 = 2 ∧
    Event.telemetryToolUsage "search" 2 ∈
      (use (fun _ => .ok wCall) wCacheEmpty [wTool] none 2).2.2 ∧
    Event.telemetryToolUsage "search" 1 ∉
      (use (fun _ => .ok wCall) wCacheEmpty [wTool] none 2).2.2 := by
  refine ⟨?_, ?_, ?_⟩ <;>
    simp [use, tool_calling, tool_use, select_tool, check_tool_repeated_usage,
      wCall, wTool, wCacheEmpty, PyVal.truthy]

/-- C9 amended: the attempt counter is instance state, initialized to 1
at construction and never reset between invocations: an invocation
whose extraction succeeds on the first delegate call leaves the counter
at its carried-in value and reports that carried-in value to telemetry,
so the reported attempts equal 1 plus the delegate failures accumulated
over all invocations of the instance, not of this invocation alone. -/
theorem attempt_counter_instance_scoped
    (delegate : Nat → Except String ToolCalling)
    (cache : String → Args → Option PyVal) (tools : List BaseTool)
    (last : Option ToolCalling) (ra : Nat) (calling : ToolCalling)
    (tool : BaseTool) (out : PyVal)
    (hd : delegate 0 = .ok calling)
    (hs : select_tool tools calling.function_name = .ok tool)
    (hr : tool.run calling.arguments = .ok out) :
    (use delegate cache tools last ra).2.1 = ra ∧
    Event.telemetryToolUsage tool.name ra ∈
      (use delegate cache tools last ra).2.2 := by
  have hTC : tool_calling delegate 3 ra 0 = (.ok calling, ra, 1, []) := by
    simp [tool_calling, hd]
  cases hcheck : check_tool_repeated_usage last calling with
  | true => constructor <;> simp [use, hTC, hs, tool_use, hcheck]
  | false =>
    cases hc : cache calling.function_name calling.arguments with
    | none =>
      constructor <;>
        simp [use, hTC, hs, tool_use, hcheck, hc, PyVal.truthy, hr]
    | some v =>
      cases hv : v.truthy with
      | true => constructor <;> simp [use, hTC, hs, tool_use, hcheck, hc, hv]
      | false =>
        constructor <;> simp [use, hTC, hs, tool_use, hcheck, hc, hv, hr]

/-- Witness for the amended C9 with a carried-in counter of 5. -/
theorem attempt_counter_instance_scoped_witness :
    (fun (_ : Nat) => (Except.ok wCall : Except String ToolCalling)) 0 =
      .ok wCall ∧
    select_tool [wTool] wCall.function_name = .ok wTool ∧
    wTool.run wCall.arguments = .ok (PyVal.str "42") ∧
    ((use (fun _ => .ok wCall) wCacheEmpty [wTool] none 5).2.1 = 5 ∧
    Event.telemetryToolUsage wTool.name 5 ∈
      (use (fun _ => .ok wCall) wCacheEmpty [wTool] none 5).2.2) :=
  ⟨rfl, rfl, rfl,
   attempt_counter_instance_scoped (fun _ => .ok wCall) wCacheEmpty [wTool]
     none 5 wCall wTool (PyVal.str "42") rfl rfl rfl⟩

/-- C10: on the repeated-usage path the tracker is left entirely
untouched — the trace holds neither a start nor an end notification, so
the tracked last-used call is unchanged — and therefore any number of
further consecutive invocations resolving to the same structurally
identical call all return the repeated-usage message as well, leaving
the tracker state unchanged throughout. -/
theorem repeated_usage_tracker_frame
    (cache : String → Args → Option PyVal) (last : Option ToolCalling)
    (ra : Nat) (tool : BaseTool) (calling : ToolCalling) (n : Nat)
    (h : check_tool_repeated_usage last calling = true) :
    noTrackerEvents (tool_use cache last ra tool calling).2 = true ∧
    handlerRun last (tool_use cache last ra tool calling).2 = last ∧
    (consecutive_tool_uses cache ra tool calling n last).1 =
      List.replicate n (.ok (.str (task_repeated_usage_message
        calling.function_name (argsStr calling.arguments)))) ∧
    (consecutive_tool_uses cache ra tool calling n last).2 = last := by
  have hstep := tool_use_repeated_eq cache last ra tool calling h
  have hconsec : ∀ m, consecutive_tool_uses cache ra tool calling m last =
      (List.replicate m (Except.ok (PyVal.str (task_repeated_usage_message
        calling.function_name (argsStr calling.arguments)))), last) := by
    intro m
    induction m with
    | zero => simp [consecutive_tool_uses]
    | succ k ih =>
      simp [consecutive_tool_uses, hstep, handlerRun, handlerStep, ih,
        List.replicate_succ]
  refine ⟨?_, ?_, ?_, ?_⟩
  · rw [hstep]
    rfl
  · rw [hstep]
    rfl
  · rw [hconsec n]
  · rw [hconsec n]

/-- Witness for C10 with two consecutive repeated invocations. -/
theorem repeated_usage_tracker_frame_witness :
    check_tool_repeated_usage (some wCall) wCall = true ∧
    (noTrackerEvents (tool_use wCacheEmpty (some wCall) 1 wTool wCall).2 =
      true ∧
    handlerRun (some wCall) (tool_use wCacheEmpty (some wCall) 1 wTool wCall).2
      = some wCall ∧
    (consecutive_tool_uses wCacheEmpty 1 wTool wCall 2 (some wCall)).1 =
      List.replicate 2 (.ok (.str (task_repeated_usage_message
        wCall.function_name (argsStr wCall.arguments)))) ∧
    (consecutive_tool_uses wCacheEmpty 1 wTool wCall 2 (some wCall)).2 =
      some wCall) :=
  ⟨by decide,
   repeated_usage_tracker_frame wCacheEmpty (some wCall) 1 wTool wCall 2
     (by decide)⟩

end ToolUsage
